import Mathlib

/-!
Verification of the atomic-swap core (maker side) of the mm2 market-maker.

The development shallowly embeds the relevant Rust code of
`mm2src/lp_swap.rs` and `mm2src/lp_swap/maker_swap.rs`:

* `BigDecimal` amounts are modelled as exact rationals (`ℚ`);
* machine integers (`u64`, `i64`, `u8`) are modelled as `Nat`/`Int`, with
  explicit wraparound (`% 2 ^ w`) at the places where the Rust code performs
  an `as` cast or where an addition is performed on `u64` values;
* fallible coin / peer operations (balance queries, payment probes, sends,
  receives) are oracles passed in as `Except String _` arguments, so that
  each state-machine step becomes a pure function of its inputs;
* transactions and their fetched details are both modelled by
  `TransactionDetails` (the retry-forever `tx_details_by_hash` loop that
  follows a successful broadcast is modelled by the successful transaction
  value itself).
-/

/-- Wire error type of the swap code (`SwapError { error: String }`). -/
structure SwapError where
  error : String
deriving DecidableEq

/-- Transaction record as stored in swap events.  Only the raw bytes matter
for the verified properties; the remaining chain-specific fields are opaque
to the core and are omitted. -/
structure TransactionDetails where
  tx_hex : List Nat
deriving DecidableEq

/-- Result of `search_for_swap_tx_spend_my` (`coins::FoundSwapTxSpend`). -/
inductive FoundSwapTxSpend where
  | Spent (tx : TransactionDetails)
  | Refunded (tx : TransactionDetails)
deriving DecidableEq

/-- Action of a successful `recover_funds` (`RecoveredSwapAction`). -/
inductive RecoveredSwapAction where
  | RefundedMyPayment
  | SpentOtherPayment
deriving DecidableEq

/-- Result of a successful `recover_funds` (`RecoveredSwap`). -/
structure RecoveredSwap where
  action : RecoveredSwapAction
  coin : String
  transaction : TransactionDetails
deriving DecidableEq

/-- Amount of a coin locked by an ongoing swap (`LockedAmount`). -/
structure LockedAmount where
  coin : String
  amount : ℚ
deriving DecidableEq

/-- Default atomic swap payment locktime, in seconds
(`const PAYMENT_LOCKTIME: u64 = 3600 * 2 + 300 * 2`). -/
def PAYMENT_LOCKTIME : Nat := 3600 * 2 + 300 * 2

/-- Grace time added to the "normal" communication timeouts
(`const BASIC_COMM_TIMEOUT: u64 = 90`). -/
def BASIC_COMM_TIMEOUT : Nat := 90

/-- Payment locktime as a function of the two tickers (`lp_atomic_locktime`):
slow coins get a larger locktime. -/
def lp_atomic_locktime (base rel : String) : Nat :=
  if base = "BTC" ∨ rel = "BTC" then
    PAYMENT_LOCKTIME * 10
  else if base = "BCH" ∨ rel = "BCH" ∨ base = "BTG" ∨ rel = "BTG" ∨ base = "SBTC" ∨ rel = "SBTC" then
    PAYMENT_LOCKTIME * 4
  else
    PAYMENT_LOCKTIME

/-- Dex fee rate (`dex_fee_rate`): 1/777, lowered by 10% when either side
is KMD. -/
def dex_fee_rate (base rel : String) : ℚ :=
  if base = "KMD" ∨ rel = "KMD" then
    (9 : ℚ) / 7770
  else
    (1 : ℚ) / 777

/-- Dex fee amount (`dex_fee_amount`): the rate applied to the trade amount,
floored at 0.0001. -/
def dex_fee_amount (base rel : String) (trade_amount : ℚ) : ℚ :=
  let rate := dex_fee_rate base rel
  let min_fee : ℚ := 1 / 10000
  let fee_amount := trade_amount * rate
  if fee_amount < min_fee then
    min_fee
  else
    fee_amount

/-- Fallback grace passed to `peers::recv` inside the `recv_!` macro:
the Rust code computes `(($timeout_sec / 3).min(30)).max(60) as u8`. -/
def recv_fallback (timeout_sec : Nat) : Nat :=
  (Nat.max (Nat.min (timeout_sec / 3) 30) 60) % 256

/-- The fallback grace the specification describes:
clamp(timeout/3, 30, 60), i.e. min(max(timeout/3, 30), 60). -/
def spec_recv_fallback (timeout_sec : Nat) : Nat :=
  Nat.min (Nat.max (timeout_sec / 3) 30) 60

/-- C7: the lock duration is 10·PAYMENT_LOCKTIME when either ticker is BTC,
else 4·PAYMENT_LOCKTIME when either ticker is BCH, BTG or SBTC, and
PAYMENT_LOCKTIME otherwise, with PAYMENT_LOCKTIME = 7800 seconds. -/
theorem C7_lp_atomic_locktime_policy :
    PAYMENT_LOCKTIME = 7800 ∧
    ∀ base rel : String,
      ((base = "BTC" ∨ rel = "BTC") → lp_atomic_locktime base rel = 10 * 7800) ∧
      (¬(base = "BTC" ∨ rel = "BTC") →
        (base = "BCH" ∨ rel = "BCH" ∨ base = "BTG" ∨ rel = "BTG" ∨ base = "SBTC" ∨ rel = "SBTC") →
        lp_atomic_locktime base rel = 4 * 7800) ∧
      (¬(base = "BTC" ∨ rel = "BTC") →
        ¬(base = "BCH" ∨ rel = "BCH" ∨ base = "BTG" ∨ rel = "BTG" ∨ base = "SBTC" ∨ rel = "SBTC") →
        lp_atomic_locktime base rel = 7800) := by
  refine ⟨rfl, fun base rel => ⟨?_, ?_, ?_⟩⟩ <;> intro h
  · simp [lp_atomic_locktime, h, PAYMENT_LOCKTIME]
  · intro h2
    simp [lp_atomic_locktime, h, h2, PAYMENT_LOCKTIME]
  · intro h2
    simp [lp_atomic_locktime, h, h2, PAYMENT_LOCKTIME]

/-- Witness for C7 at concrete tickers: a BTC pair, a BCH pair and a plain
pair get locktimes 78000, 31200 and 7800 respectively. -/
theorem C7_lp_atomic_locktime_policy_witness :
    lp_atomic_locktime "BTC" "KMD" = 10 * 7800 ∧
    lp_atomic_locktime "BCH" "KMD" = 4 * 7800 ∧
    lp_atomic_locktime "KMD" "LTC" = 7800 := by
  refine ⟨?_, ?_, ?_⟩
  · exact (C7_lp_atomic_locktime_policy.2 "BTC" "KMD").1 (Or.inl rfl)
  · exact ((C7_lp_atomic_locktime_policy.2 "BCH" "KMD").2.1 (by decide) (Or.inl rfl))
  · exact ((C7_lp_atomic_locktime_policy.2 "KMD" "LTC").2.2 (by decide) (by decide))

/-- C8: the dex fee is max(trade_amount · r, 0.0001) with r = 9/7770 when
either ticker is KMD and r = 1/777 otherwise; at trade_amount = 777·0.0001
(non-KMD) the fee is exactly 0.0001, and the floor applies below it. -/
theorem C8_dex_fee_amount :
    (∀ (base rel : String) (trade_amount : ℚ), 0 ≤ trade_amount →
      dex_fee_amount base rel trade_amount =
        max (trade_amount * (if base = "KMD" ∨ rel = "KMD" then (9 : ℚ) / 7770 else (1 : ℚ) / 777))
            (1 / 10000)) ∧
    dex_fee_amount "ETH" "LTC" (777 * (1 / 10000)) = 1 / 10000 ∧
    (∀ t : ℚ, 0 ≤ t → t < 777 * (1 / 10000) → dex_fee_amount "ETH" "LTC" t = 1 / 10000) := by
  refine ⟨?_, ?_, ?_⟩
  · intro base rel t _
    simp only [dex_fee_amount, dex_fee_rate]
    by_cases h : base = "KMD" ∨ rel = "KMD"
    · rw [if_pos h]
      rcases lt_or_le (t * ((9 : ℚ) / 7770)) ((1 : ℚ) / 10000) with hlt | hle
      · rw [if_pos hlt, max_eq_right hlt.le]
      · rw [if_neg (not_lt.mpr hle), max_eq_left hle]
    · rw [if_neg h]
      rcases lt_or_le (t * ((1 : ℚ) / 777)) ((1 : ℚ) / 10000) with hlt | hle
      · rw [if_pos hlt, max_eq_right hlt.le]
      · rw [if_neg (not_lt.mpr hle), max_eq_left hle]
  · simp only [dex_fee_amount, dex_fee_rate,
      if_neg (by decide : ¬("ETH" = "KMD" ∨ "LTC" = "KMD"))]
    norm_num
  · intro t _ ht
    have hr : t * ((1 : ℚ) / 777) < 1 / 10000 := by
      have : t / 777 < (777 * (1 / 10000)) / 777 := by
        exact div_lt_div_of_pos_right ht (by norm_num)
      calc t * ((1 : ℚ) / 777) = t / 777 := by ring
        _ < (777 * (1 / 10000)) / 777 := this
        _ = 1 / 10000 := by norm_num
    simp only [dex_fee_amount, dex_fee_rate, if_neg (by decide : ¬("ETH" = "KMD" ∨ "LTC" = "KMD"))]
    rw [if_pos hr]

/-- Witness for C8 at a concrete trade: the non-KMD fee of a trade of 777 is
exactly 1, and of a trade of 0.05 is the 0.0001 floor. -/
theorem C8_dex_fee_amount_witness :
    dex_fee_amount "ETH" "LTC" 777 = max (777 * ((1 : ℚ) / 777)) (1 / 10000) ∧
    dex_fee_amount "ETH" "LTC" (5 / 100) = 1 / 10000 := by
  constructor
  · have h := C8_dex_fee_amount.1 "ETH" "LTC" 777 (by norm_num)
    simpa using h
  · exact C8_dex_fee_amount.2.2 (5 / 100) (by norm_num) (by norm_num)

/-- C9: the fallback grace computed by `recv_!` is constant 60 for every
per-step timeout, because the Rust code applies `.min(30)` before `.max(60)`;
the clamp described by the specification would give 30 at the negotiation
timeout of 90 seconds. -/
theorem C9_recv_fallback_is_constant :
    (∀ timeout_sec : Nat, recv_fallback timeout_sec = 60) ∧
    recv_fallback 90 = 60 ∧
    spec_recv_fallback 90 = 30 := by
  refine ⟨?_, rfl, rfl⟩
  intro t
  simp only [recv_fallback]
  have h : Nat.min (t / 3) 30 ≤ 30 := Nat.min_le_right _ _
  have hmax : Nat.max (Nat.min (t / 3) 30) 60 = 60 := Nat.max_eq_right (h.trans (by norm_num))
  rw [hmax]

/-- Swap data frozen at `Started` (`MakerSwapData`).  Hashes and public keys
are modelled as natural numbers. -/
structure MakerSwapData where
  taker_coin : String
  maker_coin : String
  taker : Nat
  secret : Nat
  secret_hash : Option Nat
  my_persistent_pub : Nat
  lock_duration : Nat
  maker_amount : ℚ
  taker_amount : ℚ
  maker_payment_confirmations : Nat
  taker_payment_confirmations : Nat
  maker_payment_lock : Nat
  uuid : String
  started_at : Nat
  maker_coin_start_block : Nat
  taker_coin_start_block : Nat
deriving DecidableEq

/-- Default value of `MakerSwapData` (the Rust `Default` derive zeroes every
field). -/
def MakerSwapData.default : MakerSwapData :=
  ⟨"", "", 0, 0, none, 0, 0, 0, 0, 0, 0, 0, "", 0, 0, 0⟩

/-- Data the maker records from the taker reply (`TakerNegotiationData`). -/
structure TakerNegotiationData where
  taker_payment_locktime : Nat
  taker_pubkey : Nat
deriving DecidableEq

/-- Negotiation payload exchanged on swap start (`SwapNegotiationData`). -/
structure SwapNegotiationData where
  started_at : Nat
  payment_locktime : Nat
  secret_hash : Nat
  persistent_pubkey : Nat
deriving DecidableEq

/-- Events of the maker state machine (`MakerSwapEvent`). -/
inductive MakerSwapEvent where
  | Started (data : MakerSwapData)
  | StartFailed (err : SwapError)
  | Negotiated (data : TakerNegotiationData)
  | NegotiateFailed (err : SwapError)
  | TakerFeeValidated (tx : TransactionDetails)
  | TakerFeeValidateFailed (err : SwapError)
  | MakerPaymentSent (tx : TransactionDetails)
  | MakerPaymentTransactionFailed (err : SwapError)
  | MakerPaymentDataSendFailed (err : SwapError)
  | TakerPaymentReceived (tx : TransactionDetails)
  | TakerPaymentWaitConfirmStarted
  | TakerPaymentValidatedAndConfirmed
  | TakerPaymentValidateFailed (err : SwapError)
  | TakerPaymentSpent (tx : TransactionDetails)
  | TakerPaymentSpendFailed (err : SwapError)
  | MakerPaymentRefunded (tx : TransactionDetails)
  | MakerPaymentRefundFailed (err : SwapError)
  | Finished
deriving DecidableEq

/-- Commands of the maker state machine (`MakerSwapCommand`). -/
inductive MakerSwapCommand where
  | Start
  | Negotiate
  | WaitForTakerFee
  | SendPayment
  | WaitForTakerPayment
  | ValidateTakerPayment
  | SpendTakerPayment
  | RefundMakerPayment
  | Finish
deriving DecidableEq

/-- In-memory maker swap state (`MakerSwap`).  The `MmArc` context and the
two `MmCoinEnum` coin handles are replaced by their tickers; coin and peer
calls are supplied as oracles to the individual step functions. -/
structure MakerSwap where
  maker_coin : String
  taker_coin : String
  maker_amount : ℚ
  taker_amount : ℚ
  my_persistent_pub : Nat
  taker : Nat
  uuid : String
  data : MakerSwapData
  taker_payment_lock : Nat
  other_persistent_pub : Nat
  taker_fee : Option TransactionDetails
  maker_payment : Option TransactionDetails
  taker_payment : Option TransactionDetails
  taker_payment_confirmed : Bool
  taker_payment_spend : Option TransactionDetails
  maker_payment_refund : Option TransactionDetails
  errors : List SwapError
  finished_at : Nat
deriving DecidableEq

/-- Constructor of a fresh maker swap (`MakerSwap::new`). -/
def MakerSwap.new (taker : Nat) (maker_coin taker_coin : String)
    (maker_amount taker_amount : ℚ) (my_persistent_pub : Nat) (uuid : String) : MakerSwap :=
  { maker_coin := maker_coin
    taker_coin := taker_coin
    maker_amount := maker_amount
    taker_amount := taker_amount
    my_persistent_pub := my_persistent_pub
    taker := taker
    uuid := uuid
    data := MakerSwapData.default
    taker_payment_lock := 0
    other_persistent_pub := 0
    taker_fee := none
    maker_payment := none
    taker_payment := none
    taker_payment_confirmed := false
    taker_payment_spend := none
    maker_payment_refund := none
    errors := []
    finished_at := 0 }

/-- State update on one event (`MakerSwap::apply_event`).  The `Finished`
event records the current time, which the Rust code reads from the clock and
which is therefore passed in as `now`. -/
def MakerSwap.apply_event (s : MakerSwap) (now : Nat) : MakerSwapEvent → MakerSwap
  | .Started data => { s with data := data }
  | .StartFailed err => { s with errors := s.errors ++ [err] }
  | .Negotiated data =>
      { s with taker_payment_lock := data.taker_payment_locktime
               other_persistent_pub := data.taker_pubkey }
  | .NegotiateFailed err => { s with errors := s.errors ++ [err] }
  | .TakerFeeValidated tx => { s with taker_fee := some tx }
  | .TakerFeeValidateFailed err => { s with errors := s.errors ++ [err] }
  | .MakerPaymentSent tx => { s with maker_payment := some tx }
  | .MakerPaymentTransactionFailed err => { s with errors := s.errors ++ [err] }
  | .MakerPaymentDataSendFailed err => { s with errors := s.errors ++ [err] }
  | .TakerPaymentReceived tx => { s with taker_payment := some tx }
  | .TakerPaymentWaitConfirmStarted => s
  | .TakerPaymentValidatedAndConfirmed => { s with taker_payment_confirmed := true }
  | .TakerPaymentValidateFailed err => { s with errors := s.errors ++ [err] }
  | .TakerPaymentSpent tx => { s with taker_payment_spend := some tx }
  | .TakerPaymentSpendFailed err => { s with errors := s.errors ++ [err] }
  | .MakerPaymentRefunded tx => { s with maker_payment_refund := some tx }
  | .MakerPaymentRefundFailed err => { s with errors := s.errors ++ [err] }
  | .Finished => { s with finished_at := now }

/-- Replay of a timestamped event sequence over a state, as done by the
driver loop and by `load_from_saved`. -/
def MakerSwap.applyEvents (s : MakerSwap) (evs : List (Nat × MakerSwapEvent)) : MakerSwap :=
  evs.foldl (fun sw p => sw.apply_event p.1 p.2) s

/-- Locked-amount contribution of a maker swap (`MakerSwap::locked_amount`
of the `AtomicSwap` impl): the full maker amount while the maker payment has
not been sent, zero afterwards. -/
def MakerSwap.locked_amount (s : MakerSwap) : LockedAmount :=
  { coin := s.maker_coin
    amount := match s.maker_payment with
              | some _ => 0
              | none => s.maker_amount }

/-- Event matcher: is the event `MakerPaymentSent`? -/
def MakerSwapEvent.isMakerPaymentSent : MakerSwapEvent → Bool
  | .MakerPaymentSent _ => true
  | _ => false

/-- Event matcher: is the event `MakerPaymentRefunded`? -/
def MakerSwapEvent.isMakerPaymentRefunded : MakerSwapEvent → Bool
  | .MakerPaymentRefunded _ => true
  | _ => false

/-- Event matcher: is the event `TakerPaymentSpent`? -/
def MakerSwapEvent.isTakerPaymentSpent : MakerSwapEvent → Bool
  | .TakerPaymentSpent _ => true
  | _ => false

/-- Event matcher: is the event `StartFailed`? -/
def MakerSwapEvent.isStartFailed : MakerSwapEvent → Bool
  | .StartFailed _ => true
  | _ => false

/-- Event matcher: is the event `NegotiateFailed`? -/
def MakerSwapEvent.isNegotiateFailed : MakerSwapEvent → Bool
  | .NegotiateFailed _ => true
  | _ => false

/-- Event matcher: is the event `TakerFeeValidateFailed`? -/
def MakerSwapEvent.isTakerFeeValidateFailed : MakerSwapEvent → Bool
  | .TakerFeeValidateFailed _ => true
  | _ => false

/-- Event types whose presence makes a saved maker swap non-recoverable
(the `match` arm inside `MakerSavedSwap::is_recoverable`). -/
def MakerSwapEvent.unrecoverable : MakerSwapEvent → Bool
  | .StartFailed _ => true
  | .NegotiateFailed _ => true
  | .TakerFeeValidateFailed _ => true
  | .TakerPaymentSpent _ => true
  | .MakerPaymentRefunded _ => true
  | _ => false

/-- Timestamped persisted event (`MakerSavedEvent`). -/
structure MakerSavedEvent where
  timestamp : Nat
  event : MakerSwapEvent
deriving DecidableEq

/-- Next command to execute after a swap is restored from this event
(`MakerSavedEvent::get_command`). -/
def MakerSavedEvent.get_command (e : MakerSavedEvent) : Option MakerSwapCommand :=
  match e.event with
  | .Started _ => some .Negotiate
  | .StartFailed _ => some .Finish
  | .Negotiated _ => some .WaitForTakerFee
  | .NegotiateFailed _ => some .Finish
  | .TakerFeeValidated _ => some .SendPayment
  | .TakerFeeValidateFailed _ => some .Finish
  | .MakerPaymentSent _ => some .WaitForTakerPayment
  | .MakerPaymentTransactionFailed _ => some .Finish
  | .MakerPaymentDataSendFailed _ => some .RefundMakerPayment
  | .TakerPaymentReceived _ => some .ValidateTakerPayment
  | .TakerPaymentWaitConfirmStarted => some .ValidateTakerPayment
  | .TakerPaymentValidatedAndConfirmed => some .SpendTakerPayment
  | .TakerPaymentValidateFailed _ => some .RefundMakerPayment
  | .TakerPaymentSpent _ => some .Finish
  | .TakerPaymentSpendFailed _ => some .RefundMakerPayment
  | .MakerPaymentRefunded _ => some .Finish
  | .MakerPaymentRefundFailed _ => some .Finish
  | .Finished => none

/-- Persisted maker swap record (`MakerSavedSwap`).  The metadata fields not
used by the verified operations are omitted. -/
structure MakerSavedSwap where
  uuid : String
  events : List MakerSavedEvent
deriving DecidableEq

/-- A saved swap is finished when its last event is `Finished`
(`MakerSavedSwap::is_finished`). -/
def MakerSavedSwap.is_finished (s : MakerSavedSwap) : Bool :=
  match s.events.getLast? with
  | some ev => decide (ev.event = MakerSwapEvent.Finished)
  | none => false

/-- A saved swap offers fund recovery when it is finished and none of the
terminally-clean event types occurred (`MakerSavedSwap::is_recoverable`). -/
def MakerSavedSwap.is_recoverable (s : MakerSavedSwap) : Bool :=
  if !s.is_finished then false
  else s.events.all fun ev => !ev.event.unrecoverable

/-- Restoring a swap from its saved record (`MakerSwap::load_from_saved`):
requires a non-empty event list starting with `Started`, replays every event
and returns the next command of the last saved event.  The tickers and the
owner public key come from the caller (context / coin handles); `now` is the
clock read used when replaying a `Finished` event. -/
def MakerSwap.load_from_saved (now : Nat) (my_persistent_pub : Nat)
    (maker_coin taker_coin : String) (saved : MakerSavedSwap) :
    Except String (MakerSwap × Option MakerSwapCommand) :=
  match saved.events with
  | [] => .error "Can't restore swap from empty events set"
  | e0 :: rest =>
    match e0.event with
    | .Started data =>
      let swap := MakerSwap.new data.taker maker_coin taker_coin
        data.maker_amount data.taker_amount my_persistent_pub saved.uuid
      let command := ((e0 :: rest).getLast (List.cons_ne_nil e0 rest)).get_command
      let final := swap.applyEvents ((e0 :: rest).map fun ev => (now, ev.event))
      .ok (final, command)
    | _ => .error "First swap event must be Started"

/-- Rust `as i64` cast of a `u64` value (two's-complement wraparound). -/
def i64cast (n : Nat) : Int :=
  ((n + 2 ^ 63) % 2 ^ 64 : Nat) - 2 ^ 63

/-- On realistic values the `as i64` cast is the identity. -/
theorem i64cast_of_lt (n : Nat) (h : n < 2 ^ 63) : i64cast n = n := by
  have hlt : n + 2 ^ 63 < 2 ^ 64 := by omega
  simp only [i64cast, Nat.mod_eq_of_lt hlt]
  push_cast
  omega

/-- Decision the maker takes on a received negotiation reply
(`MakerSwap::negotiate`).  The outcome of the `send!` of the maker data and
of the `recv!`/`deserialize` of the reply are oracles; the rest is the
verbatim validation logic: reject on a started_at difference above 60
seconds or on an unexpected taker payment locktime, where the expected
locktime is `taker.started_at + lock_duration` (a `u64` addition). -/
def MakerSwap.negotiate_step (s : MakerSwap)
    (send_result : Except String Unit)
    (recv_result : Except String SwapNegotiationData) :
    Option MakerSwapCommand × List MakerSwapEvent :=
  match send_result with
  | .error e => (some .Finish, [.NegotiateFailed ⟨e⟩])
  | .ok _ =>
    match recv_result with
    | .error e => (some .Finish, [.NegotiateFailed ⟨e⟩])
    | .ok taker_data =>
      let time_dif := (i64cast s.data.started_at - i64cast taker_data.started_at).natAbs
      if time_dif > 60 then
        (some .Finish,
         [.NegotiateFailed ⟨"Started_at time_dif over 60 " ++ toString time_dif⟩])
      else
        let expected_lock_time := (taker_data.started_at + s.data.lock_duration) % 2 ^ 64
        if taker_data.payment_locktime ≠ expected_lock_time then
          (some .Finish,
           [.NegotiateFailed ⟨"taker_data.payment_locktime " ++
             toString taker_data.payment_locktime ++ " not equal to expected " ++
             toString expected_lock_time⟩])
        else
          (some .WaitForTakerFee,
           [.Negotiated ⟨taker_data.payment_locktime, taker_data.persistent_pubkey⟩])

/-- Outcome of one execution of the `SendPayment` command, together with
whether a new payment transaction was broadcast. -/
structure SendPaymentResult where
  command : Option MakerSwapCommand
  events : List MakerSwapEvent
  broadcast : Bool
deriving DecidableEq

/-- Execution of the `SendPayment` command (`MakerSwap::maker_payment`):
fail on entry when past `started_at + lock_duration / 3`; otherwise consult
the `check_if_my_payment_sent` idempotency probe and broadcast with
`send_maker_payment` only when the probe reports no existing payment.
`probe` and `send_result` are the oracles for those two coin calls. -/
def MakerSwap.maker_payment_step (s : MakerSwap) (now : Nat)
    (probe : Except String (Option TransactionDetails))
    (send_result : Except String TransactionDetails) : SendPaymentResult :=
  let timeout := s.data.started_at + s.data.lock_duration / 3
  if now > timeout then
    ⟨some .Finish,
     [.MakerPaymentTransactionFailed ⟨"Timeout " ++ toString now ++ " > " ++ toString timeout⟩],
     false⟩
  else
    match probe with
    | .error e => ⟨some .Finish, [.MakerPaymentTransactionFailed ⟨e⟩], false⟩
    | .ok (some tx) => ⟨some .WaitForTakerPayment, [.MakerPaymentSent tx], false⟩
    | .ok none =>
      match send_result with
      | .error e => ⟨some .Finish, [.MakerPaymentTransactionFailed ⟨e⟩], false⟩
      | .ok tx => ⟨some .WaitForTakerPayment, [.MakerPaymentSent tx], true⟩

/-- Running-swap entry of the process-wide registry: the uuid of the swap
together with its current locked-amount contribution. -/
structure RunningSwap where
  uuid : String
  locked : LockedAmount
deriving DecidableEq

/-- Total amount of `coin` locked by ongoing swaps other than `except_uuid`
(`get_locked_amount_by_other_swaps`; the pruning of dangling weak references
leaves only live swaps, which are the list modelled here). -/
def get_locked_amount_by_other_swaps (swaps : List RunningSwap)
    (except_uuid coin : String) : ℚ :=
  swaps.foldl
    (fun total swap =>
      if swap.locked.coin = coin ∧ swap.uuid ≠ except_uuid then
        total + swap.locked.amount
      else
        total)
    0

/-- Execution of the `Start` command (`MakerSwap::start`).  The coin calls
(`my_balance`, `check_i_have_enough_to_trade`, `can_i_spend_other_payment`,
`current_block`, `required_confirmations`), the random secret, its hash
function and the clock are oracles; the registry of running swaps is passed
as a list. -/
def MakerSwap.start (s : MakerSwap)
    (balance : Except String ℚ)
    (running : List RunningSwap)
    (enough_to_trade : Except String Unit)
    (can_spend_other : Except String Unit)
    (dhash160 : Nat → Nat)
    (secret : Nat) (started_at : Nat)
    (maker_block : Except String Nat)
    (taker_block : Except String Nat)
    (maker_confirmations taker_confirmations : Nat) :
    Option MakerSwapCommand × List MakerSwapEvent :=
  match balance with
  | .error e => (some .Finish, [.StartFailed ⟨"!my_balance " ++ e⟩])
  | .ok my_balance =>
    let locked := get_locked_amount_by_other_swaps running s.uuid s.maker_coin
    let available := my_balance - locked
    if s.maker_amount > available then
      (some .Finish, [.StartFailed ⟨"maker amount is larger than available"⟩])
    else
      match enough_to_trade with
      | .error e => (some .Finish, [.StartFailed ⟨"!check_i_have_enough_to_trade " ++ e⟩])
      | .ok _ =>
        match can_spend_other with
        | .error e => (some .Finish, [.StartFailed ⟨"!can_i_spend_other_payment " ++ e⟩])
        | .ok _ =>
          let lock_duration := lp_atomic_locktime s.maker_coin s.taker_coin
          match maker_block with
          | .error e => (some .Finish, [.StartFailed ⟨"!maker_coin.current_block " ++ e⟩])
          | .ok maker_coin_start_block =>
            match taker_block with
            | .error e => (some .Finish, [.StartFailed ⟨"!taker_coin.current_block " ++ e⟩])
            | .ok taker_coin_start_block =>
              let data : MakerSwapData :=
                { taker_coin := s.taker_coin
                  maker_coin := s.maker_coin
                  taker := s.taker
                  secret_hash := some (dhash160 secret)
                  secret := secret
                  started_at := started_at
                  lock_duration := lock_duration
                  maker_amount := s.maker_amount
                  taker_amount := s.taker_amount
                  maker_payment_confirmations := maker_confirmations
                  taker_payment_confirmations := taker_confirmations
                  maker_payment_lock := (started_at + lock_duration * 2) % 2 ^ 64
                  my_persistent_pub := s.my_persistent_pub
                  uuid := s.uuid
                  maker_coin_start_block := maker_coin_start_block
                  taker_coin_start_block := taker_coin_start_block }
              (some .Negotiate, [.Started data])

/-- Operator-invoked fund recovery for a finished maker swap
(`MakerSwap::recover_funds`).  The three coin calls it may make
(`check_if_my_payment_sent`, `search_for_swap_tx_spend_my`,
`send_maker_refunds_payment`) are the oracles `probe`, `search`, `refund`. -/
def MakerSwap.recover_funds (s : MakerSwap) (now : Nat)
    (probe : Except String (Option TransactionDetails))
    (search : Except String (Option FoundSwapTxSpend))
    (refund : Except String TransactionDetails) : Except String RecoveredSwap :=
  if s.finished_at = 0 then
    .error "Swap must be finished before recover funds attempt"
  else if s.maker_payment_refund.isSome then
    .error "Maker payment is refunded, swap is not recoverable"
  else if s.taker_payment_spend.isSome then
    .error "Taker payment is spent, swap is not recoverable"
  else
    let located : Except String (List Nat) :=
      match s.maker_payment with
      | some tx => .ok tx.tx_hex
      | none =>
        match probe with
        | .error e => .error e
        | .ok (some tx) => .ok tx.tx_hex
        | .ok none => .error "Maker payment transaction was not found"
    match located with
    | .error e => .error e
    | .ok _maker_payment =>
      match search with
      | .ok (some (.Spent _)) => .error "Maker payment was already spent"
      | .ok (some (.Refunded _)) => .error "Maker payment was already refunded"
      | .error _ => .error "Error when trying to find maker payment spend"
      | .ok none =>
        if now < s.data.maker_payment_lock + 3700 then
          .error ("Too early to refund, wait until " ++
            toString (s.data.maker_payment_lock + 3700))
        else
          match refund with
          | .error e => .error e
          | .ok tx =>
            .ok { action := .RefundedMyPayment
                  coin := s.maker_coin
                  transaction := tx }

/-- The maker payment used by `recover_funds` is located either from the
events (the `maker_payment` field) or from the `check_if_my_payment_sent`
probe. -/
def recoverLocates (s : MakerSwap) (probe : Except String (Option TransactionDetails)) : Prop :=
  s.maker_payment.isSome = true ∨ (∃ t, probe = Except.ok (some t))

/-- C1: on a finished maker swap with no refund and no taker-payment-spend
recorded, `recover_funds` errors when neither the events nor the probe yield
the maker payment; it fails when the spend search reports Spent or Refunded;
it errors "Too early to refund" exactly while now < maker_payment_lock + 3700;
and from that boundary on it refunds via `send_maker_refunds_payment`,
returning action RefundedMyPayment on the maker coin. -/
theorem C1_recover_funds (s : MakerSwap) (now : Nat)
    (probe : Except String (Option TransactionDetails))
    (search : Except String (Option FoundSwapTxSpend))
    (refund : Except String TransactionDetails)
    (hfin : s.finished_at ≠ 0)
    (hrefund : s.maker_payment_refund = none)
    (hspend : s.taker_payment_spend = none) :
    (s.maker_payment = none → probe = Except.ok none →
      s.recover_funds now probe search refund =
        .error "Maker payment transaction was not found") ∧
    (recoverLocates s probe → ∀ tx, search = Except.ok (some (.Spent tx)) →
      s.recover_funds now probe search refund = .error "Maker payment was already spent") ∧
    (recoverLocates s probe → ∀ tx, search = Except.ok (some (.Refunded tx)) →
      s.recover_funds now probe search refund = .error "Maker payment was already refunded") ∧
    (recoverLocates s probe → search = Except.ok none →
      now < s.data.maker_payment_lock + 3700 →
      s.recover_funds now probe search refund =
        .error ("Too early to refund, wait until " ++ toString (s.data.maker_payment_lock + 3700))) ∧
    (recoverLocates s probe → search = Except.ok none →
      s.data.maker_payment_lock + 3700 ≤ now → ∀ tx, refund = Except.ok tx →
      s.recover_funds now probe search refund =
        .ok { action := .RefundedMyPayment, coin := s.maker_coin, transaction := tx }) := by
  have hif : ¬(s.finished_at = 0) := hfin
  refine ⟨?_, ?_, ?_, ?_, ?_⟩
  · intro hmp hpr
    simp [MakerSwap.recover_funds, hif, hrefund, hspend, hmp, hpr]
  · intro hloc tx hs
    cases hmp : s.maker_payment with
    | some tx0 => simp [MakerSwap.recover_funds, hif, hrefund, hspend, hmp, hs]
    | none =>
      rcases hloc with h | ⟨t, ht⟩
      · rw [hmp] at h; simp at h
      · simp [MakerSwap.recover_funds, hif, hrefund, hspend, hmp, ht, hs]
  · intro hloc tx hs
    cases hmp : s.maker_payment with
    | some tx0 => simp [MakerSwap.recover_funds, hif, hrefund, hspend, hmp, hs]
    | none =>
      rcases hloc with h | ⟨t, ht⟩
      · rw [hmp] at h; simp at h
      · simp [MakerSwap.recover_funds, hif, hrefund, hspend, hmp, ht, hs]
  · intro hloc hs hnow
    cases hmp : s.maker_payment with
    | some tx0 => simp [MakerSwap.recover_funds, hif, hrefund, hspend, hmp, hs, hnow]
    | none =>
      rcases hloc with h | ⟨t, ht⟩
      · rw [hmp] at h; simp at h
      · simp [MakerSwap.recover_funds, hif, hrefund, hspend, hmp, ht, hs, hnow]
  · intro hloc hs hnow tx hr
    cases hmp : s.maker_payment with
    | some tx0 =>
      simp [MakerSwap.recover_funds, hif, hrefund, hspend, hmp, hs, hr, not_lt.mpr hnow]
    | none =>
      rcases hloc with h | ⟨t, ht⟩
      · rw [hmp] at h; simp at h
      · simp [MakerSwap.recover_funds, hif, hrefund, hspend, hmp, ht, hs, hr, not_lt.mpr hnow]

/-- Concrete finished swap used to witness C1. -/
def c1_swap : MakerSwap :=
  { MakerSwap.new 7 "KMD" "ETH" 1 1 5 "uuid-c1" with
      finished_at := 99
      maker_payment := some ⟨[1, 2, 3]⟩ }

/-- Witness for C1: on a concrete finished swap whose maker payment lock is 0,
recovery at exactly now = 3700 (the boundary) succeeds with a refund on the
maker coin, and at now = 3699 it errors "Too early to refund". -/
theorem C1_recover_funds_witness :
    c1_swap.recover_funds 3700 (Except.ok none) (Except.ok none) (Except.ok ⟨[9]⟩) =
      .ok { action := .RefundedMyPayment, coin := "KMD", transaction := ⟨[9]⟩ } ∧
    c1_swap.recover_funds 3699 (Except.ok none) (Except.ok none) (Except.ok ⟨[9]⟩) =
      .error ("Too early to refund, wait until " ++ toString (3700 : Nat)) := by
  constructor
  · exact (C1_recover_funds c1_swap 3700 (Except.ok none) (Except.ok none) (Except.ok ⟨[9]⟩)
      (by decide) rfl rfl).2.2.2.2 (Or.inl rfl) rfl (by decide) ⟨[9]⟩ rfl
  · exact (C1_recover_funds c1_swap 3699 (Except.ok none) (Except.ok none) (Except.ok ⟨[9]⟩)
      (by decide) rfl rfl).2.2.2.1 (Or.inl rfl) rfl (by decide)

/-- C2: the `SendPayment` step broadcasts a new payment only when the
`check_if_my_payment_sent` probe reports none, hence two executions against
a chain that reflects the first broadcast produce at most one payment; and
past `started_at + lock_duration / 3` it fails with
`MakerPaymentTransactionFailed` and goes to `Finish` without broadcasting. -/
theorem C2_maker_payment_idempotent (s : MakerSwap) :
    (∀ (now : Nat) (probe : Except String (Option TransactionDetails))
       (send_result : Except String TransactionDetails),
      (s.maker_payment_step now probe send_result).broadcast = true →
        probe = Except.ok none) ∧
    (∀ (now : Nat) (probe : Except String (Option TransactionDetails))
       (send_result : Except String TransactionDetails),
      now > s.data.started_at + s.data.lock_duration / 3 →
      ∃ msg, s.maker_payment_step now probe send_result =
        ⟨some .Finish, [.MakerPaymentTransactionFailed msg], false⟩) ∧
    (∀ (chain : Option TransactionDetails) (sent1 sent2 : TransactionDetails)
       (now1 now2 : Nat),
      ¬((s.maker_payment_step now1 (Except.ok chain) (Except.ok sent1)).broadcast = true ∧
        (s.maker_payment_step now2
          (Except.ok (if (s.maker_payment_step now1 (Except.ok chain) (Except.ok sent1)).broadcast
                      then some sent1 else chain))
          (Except.ok sent2)).broadcast = true)) := by
  have honly : ∀ (now : Nat) (probe : Except String (Option TransactionDetails))
      (send_result : Except String TransactionDetails),
      (s.maker_payment_step now probe send_result).broadcast = true →
        probe = Except.ok none := by
    intro now probe send_result h
    by_cases ht : now > s.data.started_at + s.data.lock_duration / 3
    · simp [MakerSwap.maker_payment_step, ht] at h
    · cases probe with
      | error e => simp [MakerSwap.maker_payment_step, ht] at h
      | ok o =>
        cases o with
        | some tx => simp [MakerSwap.maker_payment_step, ht] at h
        | none => rfl
  refine ⟨honly, ?_, ?_⟩
  · intro now probe send_result ht
    refine ⟨⟨"Timeout " ++ toString now ++ " > " ++
      toString (s.data.started_at + s.data.lock_duration / 3)⟩, ?_⟩
    simp [MakerSwap.maker_payment_step, ht]
  · intro chain sent1 sent2 now1 now2 ⟨h1, h2⟩
    have := honly now2 _ _ h2
    rw [h1] at this
    simp at this

/-- Concrete fresh swap used to witness C2 (default data has
started_at = 0 and lock_duration = 0). -/
def c2_swap : MakerSwap := MakerSwap.new 3 "KMD" "ETH" 1 1 4 "uuid-c2"

/-- Witness for C2: at now = 1 the step times out (1 > 0 + 0/3) and no
payment is broadcast. -/
theorem C2_maker_payment_idempotent_witness :
    ∃ msg, c2_swap.maker_payment_step 1 (Except.ok none) (Except.ok ⟨[1]⟩) =
      ⟨some .Finish, [.MakerPaymentTransactionFailed msg], false⟩ :=
  (C2_maker_payment_idempotent c2_swap).2.1 1 (Except.ok none) (Except.ok ⟨[1]⟩) (by decide)

/-- C3: for a received and decoded taker reply, the maker rejects with
`NegotiateFailed` and goes to `Finish` exactly when the started_at clock
difference exceeds 60 seconds or the taker payment locktime differs from
`taker.started_at + lock_duration`; otherwise it emits `Negotiated` with the
taker locktime and pubkey and proceeds to `WaitForTakerFee`.  The bounds keep
the `as i64` casts and `u64` additions of the source out of wraparound. -/
theorem C3_negotiate_validation (s : MakerSwap) (td : SwapNegotiationData)
    (hm : s.data.started_at < 2 ^ 62) (ht : td.started_at < 2 ^ 62)
    (hl : s.data.lock_duration < 2 ^ 62) :
    ((∃ msg, s.negotiate_step (Except.ok ()) (Except.ok td) =
        (some .Finish, [.NegotiateFailed msg])) ↔
      (((s.data.started_at : Int) - (td.started_at : Int)).natAbs > 60 ∨
        td.payment_locktime ≠ td.started_at + s.data.lock_duration)) ∧
    ((((s.data.started_at : Int) - (td.started_at : Int)).natAbs ≤ 60 ∧
        td.payment_locktime = td.started_at + s.data.lock_duration) →
      s.negotiate_step (Except.ok ()) (Except.ok td) =
        (some .WaitForTakerFee, [.Negotiated ⟨td.payment_locktime, td.persistent_pubkey⟩])) := by
  have hm63 : s.data.started_at < 2 ^ 63 := lt_trans hm (by norm_num)
  have ht63 : td.started_at < 2 ^ 63 := lt_trans ht (by norm_num)
  have hcast : i64cast s.data.started_at - i64cast td.started_at =
      (s.data.started_at : Int) - (td.started_at : Int) := by
    rw [i64cast_of_lt _ hm63, i64cast_of_lt _ ht63]
  have hmod : (td.started_at + s.data.lock_duration) % 2 ^ 64 =
      td.started_at + s.data.lock_duration := by
    apply Nat.mod_eq_of_lt
    have : (2 : Nat) ^ 62 + 2 ^ 62 ≤ 2 ^ 64 := by norm_num
    omega
  set dif := ((s.data.started_at : Int) - (td.started_at : Int)).natAbs with hdif
  constructor
  · constructor
    · intro ⟨msg, hmsg⟩
      by_cases h60 : dif > 60
      · exact Or.inl h60
      · by_cases hlock : td.payment_locktime = td.started_at + s.data.lock_duration
        · exfalso
          rw [MakerSwap.negotiate_step] at hmsg
          simp only [hcast, ← hdif, hmod] at hmsg
          rw [if_neg h60, if_neg (by simp [hlock])] at hmsg
          simp at hmsg
        · exact Or.inr hlock
    · intro h
      rw [MakerSwap.negotiate_step]
      simp only [hcast, ← hdif, hmod]
      rcases h with h60 | hlock
      · rw [if_pos h60]
        exact ⟨_, rfl⟩
      · by_cases h60 : dif > 60
        · rw [if_pos h60]
          exact ⟨_, rfl⟩
        · rw [if_neg h60, if_pos hlock]
          exact ⟨_, rfl⟩
  · intro ⟨h60, hlock⟩
    rw [MakerSwap.negotiate_step]
    simp only [hcast, ← hdif, hmod]
    rw [if_neg (not_lt.mpr h60), if_neg (by simp [hlock])]

/-- Concrete maker state used to witness C3: started_at = 1000000 and
lock_duration = 7800. -/
def c3_swap : MakerSwap :=
  { MakerSwap.new 2 "KMD" "ETH" 1 1 6 "uuid-c3" with
      data := { MakerSwapData.default with started_at := 1000000, lock_duration := 7800 } }

/-- Witness for C3 at the clock-skew boundary: a taker reply 60 seconds away
with the expected locktime is accepted, while one 61 seconds away is
rejected with NegotiateFailed. -/
theorem C3_negotiate_validation_witness :
    c3_swap.negotiate_step (Except.ok ())
        (Except.ok ⟨1000060, 1007860, 11, 22⟩) =
      (some .WaitForTakerFee, [.Negotiated ⟨1007860, 22⟩]) ∧
    (∃ msg, c3_swap.negotiate_step (Except.ok ())
        (Except.ok ⟨1000061, 1007861, 11, 22⟩) =
      (some .Finish, [.NegotiateFailed msg])) := by
  constructor
  · exact (C3_negotiate_validation c3_swap ⟨1000060, 1007860, 11, 22⟩
      (by decide) (by decide) (by decide)).2 ⟨by decide, by decide⟩
  · exact (C3_negotiate_validation c3_swap ⟨1000061, 1007861, 11, 22⟩
      (by decide) (by decide) (by decide)).1.mpr (Or.inl (by decide))

/-- One event application changes the recorded maker payment only through
`MakerPaymentSent`. -/
theorem apply_event_maker_payment (s : MakerSwap) (now : Nat) (e : MakerSwapEvent) :
    (s.apply_event now e).maker_payment =
      (match e with
       | .MakerPaymentSent tx => some tx
       | _ => s.maker_payment) := by
  cases e <;> rfl

/-- One event application never changes the constructor-supplied maker
amount. -/
theorem apply_event_maker_amount (s : MakerSwap) (now : Nat) (e : MakerSwapEvent) :
    (s.apply_event now e).maker_amount = s.maker_amount := by
  cases e <;> rfl

/-- One event application never changes the maker coin ticker. -/
theorem apply_event_maker_coin (s : MakerSwap) (now : Nat) (e : MakerSwapEvent) :
    (s.apply_event now e).maker_coin = s.maker_coin := by
  cases e <;> rfl

/-- After replaying an event sequence the maker payment is recorded exactly
when it was recorded before or the sequence contains `MakerPaymentSent`. -/
theorem applyEvents_maker_payment_isSome (evs : List (Nat × MakerSwapEvent)) :
    ∀ s : MakerSwap, ((s.applyEvents evs).maker_payment).isSome =
      (s.maker_payment.isSome || evs.any fun p => p.2.isMakerPaymentSent) := by
  induction evs with
  | nil => intro s; simp [MakerSwap.applyEvents]
  | cons p t ih =>
    intro s
    have hstep : MakerSwap.applyEvents s (p :: t) =
        MakerSwap.applyEvents (s.apply_event p.1 p.2) t := rfl
    rw [hstep, ih, apply_event_maker_payment]
    cases hp : p.2 <;>
      simp [hp, MakerSwapEvent.isMakerPaymentSent, Bool.or_assoc]

/-- Replaying an event sequence never changes the maker amount. -/
theorem applyEvents_maker_amount (evs : List (Nat × MakerSwapEvent)) :
    ∀ s : MakerSwap, (s.applyEvents evs).maker_amount = s.maker_amount := by
  induction evs with
  | nil => intro s; rfl
  | cons p t ih =>
    intro s
    have hstep : MakerSwap.applyEvents s (p :: t) =
        MakerSwap.applyEvents (s.apply_event p.1 p.2) t := rfl
    rw [hstep, ih, apply_event_maker_amount]

/-- Replaying an event sequence never changes the maker coin. -/
theorem applyEvents_maker_coin (evs : List (Nat × MakerSwapEvent)) :
    ∀ s : MakerSwap, (s.applyEvents evs).maker_coin = s.maker_coin := by
  induction evs with
  | nil => intro s; rfl
  | cons p t ih =>
    intro s
    have hstep : MakerSwap.applyEvents s (p :: t) =
        MakerSwap.applyEvents (s.apply_event p.1 p.2) t := rfl
    rw [hstep, ih, apply_event_maker_coin]

/-- Event sequence refuting C4: the swap start-fails and finishes without
ever sending the maker payment. -/
def c4_events : List (Nat × MakerSwapEvent) :=
  [(10, .Started MakerSwapData.default), (11, .StartFailed ⟨"e"⟩), (12, .Finished)]

/-- State reconstructed from `c4_events` with maker_amount = 1. -/
def c4_swap : MakerSwap :=
  (MakerSwap.new 0 "BEER" "ETH" 1 2 0 "uuid-c4").applyEvents c4_events

/-- Counterexample to C4: the swap reconstructed from
`Started, StartFailed, Finished` is finished (finished_at = 12 ≠ 0) and never
emitted `MakerPaymentSent`, yet its locked-amount contribution is the full
maker_amount = 1, not 0 — so contribution = 0 does not hold "iff
MakerPaymentSent was emitted or the swap is Finished". -/
theorem C4_locked_amount_counterexample :
    ¬((c4_swap.locked_amount.amount = 0) ↔
      ((c4_events.any fun p => p.2.isMakerPaymentSent) = true ∨ c4_swap.finished_at ≠ 0)) := by
  decide

/-- C4 amended: for a maker swap reconstructed from any event sequence (with
a non-zero maker amount), the locked-amount contribution is 0 iff the
sequence contains `MakerPaymentSent`; before that the contribution is exactly
maker_amount on the maker coin — whether or not the swap is Finished. -/
theorem C4_locked_amount_amended (taker : Nat) (mc tc : String) (ma ta : ℚ)
    (pub : Nat) (uuid : String) (evs : List (Nat × MakerSwapEvent)) (hma : ma ≠ 0) :
    (((MakerSwap.new taker mc tc ma ta pub uuid).applyEvents evs).locked_amount.amount = 0 ↔
      (evs.any fun p => p.2.isMakerPaymentSent) = true) ∧
    ((evs.any fun p => p.2.isMakerPaymentSent) = false →
      ((MakerSwap.new taker mc tc ma ta pub uuid).applyEvents evs).locked_amount.amount = ma ∧
      ((MakerSwap.new taker mc tc ma ta pub uuid).applyEvents evs).locked_amount.coin = mc) := by
  set S := (MakerSwap.new taker mc tc ma ta pub uuid).applyEvents evs with hS
  have hsome : S.maker_payment.isSome = (evs.any fun p => p.2.isMakerPaymentSent) := by
    rw [hS, applyEvents_maker_payment_isSome]
    simp [MakerSwap.new]
  have hamount : S.maker_amount = ma := by
    rw [hS, applyEvents_maker_amount]; rfl
  have hcoin : S.maker_coin = mc := by
    rw [hS, applyEvents_maker_coin]; rfl
  constructor
  · constructor
    · intro h0
      cases hmp : S.maker_payment with
      | some tx => rw [← hsome, hmp]; rfl
      | none =>
        exfalso
        apply hma
        rw [← hamount]
        have : S.locked_amount.amount = S.maker_amount := by
          simp [MakerSwap.locked_amount, hmp]
        rw [← this, h0]
    · intro hany
      have : S.maker_payment.isSome = true := by rw [hsome, hany]
      cases hmp : S.maker_payment with
      | none => rw [hmp] at this; simp at this
      | some tx => simp [MakerSwap.locked_amount, hmp]
  · intro hany
    have : S.maker_payment.isSome = false := by rw [hsome, hany]
    cases hmp : S.maker_payment with
    | some tx => rw [hmp] at this; simp at this
    | none => simp [MakerSwap.locked_amount, hmp, hamount, hcoin]

/-- Witness for the amended C4 on the concrete `c4_events`: no
`MakerPaymentSent` occurs, so the contribution is the full maker amount 1 on
coin BEER. -/
theorem C4_locked_amount_amended_witness :
    ((MakerSwap.new 0 "BEER" "ETH" 1 2 0 "uuid-c4").applyEvents c4_events).locked_amount.amount = 1 ∧
    ((MakerSwap.new 0 "BEER" "ETH" 1 2 0 "uuid-c4").applyEvents c4_events).locked_amount.coin = "BEER" :=
  (C4_locked_amount_amended 0 "BEER" "ETH" 1 2 0 "uuid-c4" c4_events (by norm_num)).2 (by decide)

/-- Saved swap refuting C5: finished, never refunded, taker payment never
spent — but it start-failed, so the code deems it non-recoverable. -/
def c5_saved : MakerSavedSwap :=
  { uuid := "uuid-c5"
    events := [⟨1, .Started MakerSwapData.default⟩, ⟨2, .StartFailed ⟨"e"⟩⟩, ⟨3, .Finished⟩] }

/-- Counterexample to C5: a saved swap whose last event is Finished and which
contains neither `MakerPaymentRefunded` nor `TakerPaymentSpent` still has
`is_recoverable` = false, because it contains `StartFailed`. -/
theorem C5_is_recoverable_counterexample :
    (c5_saved.events.getLast?).map MakerSavedEvent.event = some .Finished ∧
    (∀ ev ∈ c5_saved.events,
      ev.event.isMakerPaymentRefunded = false ∧ ev.event.isTakerPaymentSpent = false) ∧
    c5_saved.is_recoverable = false := by
  decide

/-- C5 amended: a saved maker swap whose last event is Finished and whose
events contain none of `StartFailed`, `NegotiateFailed`,
`TakerFeeValidateFailed`, `TakerPaymentSpent`, `MakerPaymentRefunded` has
`is_recoverable` = true. -/
theorem C5_is_recoverable_amended (S : MakerSavedSwap) (le : MakerSavedEvent)
    (hlast : S.events.getLast? = some le) (hfin : le.event = .Finished)
    (hclean : ∀ ev ∈ S.events,
      ev.event.isStartFailed = false ∧ ev.event.isNegotiateFailed = false ∧
      ev.event.isTakerFeeValidateFailed = false ∧ ev.event.isTakerPaymentSpent = false ∧
      ev.event.isMakerPaymentRefunded = false) :
    S.is_recoverable = true := by
  have hf : S.is_finished = true := by
    simp [MakerSavedSwap.is_finished, hlast, hfin]
  simp only [MakerSavedSwap.is_recoverable, hf, Bool.not_true, Bool.false_eq_true,
    if_false, List.all_eq_true]
  intro ev hev
  obtain ⟨h1, h2, h3, h4, h5⟩ := hclean ev hev
  cases hc : ev.event <;>
    simp_all [MakerSwapEvent.unrecoverable, MakerSwapEvent.isStartFailed,
      MakerSwapEvent.isNegotiateFailed, MakerSwapEvent.isTakerFeeValidateFailed,
      MakerSwapEvent.isTakerPaymentSpent, MakerSwapEvent.isMakerPaymentRefunded]

/-- Concrete clean finished swap used to witness the amended C5. -/
def c5_clean : MakerSavedSwap :=
  { uuid := "uuid-c5b"
    events := [⟨1, .Started MakerSwapData.default⟩,
               ⟨2, .MakerPaymentSent ⟨[1]⟩⟩,
               ⟨3, .MakerPaymentRefundFailed ⟨"refund rejected"⟩⟩,
               ⟨4, .Finished⟩] }

/-- Witness for the amended C5: the concrete finished swap that failed to
refund is recoverable. -/
theorem C5_is_recoverable_amended_witness : c5_clean.is_recoverable = true :=
  C5_is_recoverable_amended c5_clean ⟨4, .Finished⟩ (by decide) rfl (by decide)

/-- Event matcher: is the event `Started`? -/
def MakerSwapEvent.isStarted : MakerSwapEvent → Bool
  | .Started _ => true
  | _ => false

/-- C6: restoring a saved maker swap errors on an empty event list or when
the first event is not `Started`; otherwise it succeeds and resumes at the
next command of the last saved event — in particular
`TakerPaymentValidatedAndConfirmed` resumes at `SpendTakerPayment` and
`Finished` yields no command. -/
theorem C6_load_from_saved (now pub : Nat) (mc tc : String) (saved : MakerSavedSwap) :
    (saved.events = [] →
      MakerSwap.load_from_saved now pub mc tc saved =
        .error "Can't restore swap from empty events set") ∧
    (∀ e0 rest, saved.events = e0 :: rest → e0.event.isStarted = false →
      MakerSwap.load_from_saved now pub mc tc saved =
        .error "First swap event must be Started") ∧
    (∀ e0 rest d, saved.events = e0 :: rest → e0.event = .Started d →
      ∃ sw le, saved.events.getLast? = some le ∧
        MakerSwap.load_from_saved now pub mc tc saved = .ok (sw, le.get_command)) ∧
    (∀ e0 rest d le, saved.events = e0 :: rest → e0.event = .Started d →
      saved.events.getLast? = some le → le.event = .TakerPaymentValidatedAndConfirmed →
      ∃ sw, MakerSwap.load_from_saved now pub mc tc saved =
        .ok (sw, some .SpendTakerPayment)) ∧
    (∀ e0 rest d le, saved.events = e0 :: rest → e0.event = .Started d →
      saved.events.getLast? = some le → le.event = .Finished →
      ∃ sw, MakerSwap.load_from_saved now pub mc tc saved = .ok (sw, none)) := by
  refine ⟨?_, ?_, ?_, ?_, ?_⟩
  · intro h
    simp [MakerSwap.load_from_saved, h]
  · intro e0 rest h hns
    cases hc : e0.event <;>
      simp_all [MakerSwap.load_from_saved, MakerSwapEvent.isStarted]
  · intro e0 rest d h hd
    have hne : e0 :: rest ≠ [] := List.cons_ne_nil e0 rest
    have hlast : saved.events.getLast? = some ((e0 :: rest).getLast hne) := by
      rw [h]
      exact List.getLast?_eq_getLast_of_ne_nil hne
    refine ⟨(MakerSwap.new d.taker mc tc d.maker_amount d.taker_amount pub
        saved.uuid).applyEvents ((e0 :: rest).map fun ev => (now, ev.event)),
      (e0 :: rest).getLast hne, hlast, ?_⟩
    simp only [MakerSwap.load_from_saved, h, hd]
  · intro e0 rest d le h hd hlast hle
    have hne : e0 :: rest ≠ [] := List.cons_ne_nil e0 rest
    have h2 : saved.events.getLast? = some ((e0 :: rest).getLast hne) := by
      rw [h]
      exact List.getLast?_eq_getLast_of_ne_nil hne
    have hle2 : le = (e0 :: rest).getLast hne := by
      rw [hlast] at h2
      exact Option.some.inj h2
    have hcmd : ((e0 :: rest).getLast hne).get_command = some .SpendTakerPayment := by
      rw [← hle2]
      simp [MakerSavedEvent.get_command, hle]
    refine ⟨(MakerSwap.new d.taker mc tc d.maker_amount d.taker_amount pub
        saved.uuid).applyEvents ((e0 :: rest).map fun ev => (now, ev.event)), ?_⟩
    simp only [MakerSwap.load_from_saved, h, hd, hcmd]
  · intro e0 rest d le h hd hlast hle
    have hne : e0 :: rest ≠ [] := List.cons_ne_nil e0 rest
    have h2 : saved.events.getLast? = some ((e0 :: rest).getLast hne) := by
      rw [h]
      exact List.getLast?_eq_getLast_of_ne_nil hne
    have hle2 : le = (e0 :: rest).getLast hne := by
      rw [hlast] at h2
      exact Option.some.inj h2
    have hcmd : ((e0 :: rest).getLast hne).get_command = none := by
      rw [← hle2]
      simp [MakerSavedEvent.get_command, hle]
    refine ⟨(MakerSwap.new d.taker mc tc d.maker_amount d.taker_amount pub
        saved.uuid).applyEvents ((e0 :: rest).map fun ev => (now, ev.event)), ?_⟩
    simp only [MakerSwap.load_from_saved, h, hd, hcmd]

/-- Concrete interrupted saved swap used to witness C6: its last event is
`TakerPaymentValidatedAndConfirmed`. -/
def c6_saved : MakerSavedSwap :=
  { uuid := "uuid-c6"
    events := [⟨1, .Started MakerSwapData.default⟩,
               ⟨2, .Negotiated ⟨500, 7⟩⟩,
               ⟨3, .TakerFeeValidated ⟨[2]⟩⟩,
               ⟨4, .MakerPaymentSent ⟨[3]⟩⟩,
               ⟨5, .TakerPaymentReceived ⟨[4]⟩⟩,
               ⟨6, .TakerPaymentWaitConfirmStarted⟩,
               ⟨7, .TakerPaymentValidatedAndConfirmed⟩] }

/-- Witness for C6: the concrete interrupted swap resumes at
`SpendTakerPayment`. -/
theorem C6_load_from_saved_witness :
    ∃ sw, MakerSwap.load_from_saved 100 5 "KMD" "ETH" c6_saved =
      .ok (sw, some .SpendTakerPayment) :=
  (C6_load_from_saved 100 5 "KMD" "ETH" c6_saved).2.2.2.1
    ⟨1, .Started MakerSwapData.default⟩
    [⟨2, .Negotiated ⟨500, 7⟩⟩,
     ⟨3, .TakerFeeValidated ⟨[2]⟩⟩,
     ⟨4, .MakerPaymentSent ⟨[3]⟩⟩,
     ⟨5, .TakerPaymentReceived ⟨[4]⟩⟩,
     ⟨6, .TakerPaymentWaitConfirmStarted⟩,
     ⟨7, .TakerPaymentValidatedAndConfirmed⟩]
    MakerSwapData.default
    ⟨7, .TakerPaymentValidatedAndConfirmed⟩
    (by decide) rfl (by decide) rfl

/-- C10: the balance precondition of the maker `Start` command uses the
locked amount summed over the other live swaps only — a registry entry whose
uuid equals the starting swap's own uuid never contributes — and `StartFailed`
is emitted (with transition to `Finish`) whenever maker_amount exceeds
my_balance minus that sum. -/
theorem C10_start_available_balance (s : MakerSwap) (running : List RunningSwap) :
    (∀ (self : RunningSwap) (coin : String), self.uuid = s.uuid →
      get_locked_amount_by_other_swaps (self :: running) s.uuid coin =
        get_locked_amount_by_other_swaps running s.uuid coin) ∧
    (∀ (my_balance : ℚ) (enough can_spend : Except String Unit)
       (dhash160 : Nat → Nat) (secret started_at : Nat)
       (mb tb : Except String Nat) (mconf tconf : Nat),
      s.maker_amount >
          my_balance - get_locked_amount_by_other_swaps running s.uuid s.maker_coin →
      s.start (Except.ok my_balance) running enough can_spend dhash160 secret
          started_at mb tb mconf tconf =
        (some .Finish, [.StartFailed ⟨"maker amount is larger than available"⟩])) := by
  constructor
  · intro self coin hself
    simp [get_locked_amount_by_other_swaps, hself]
  · intro my_balance enough can_spend dhash160 secret started_at mb tb mconf tconf hgt
    simp only [MakerSwap.start, if_pos hgt]

/-- Registry contents of the witness for C10: one other swap locking
0.6 BEER and the entry of the starting swap itself. -/
def c10_running : List RunningSwap :=
  [⟨"uuid-c10", ⟨"BEER", 1 / 2⟩⟩, ⟨"uuid-other", ⟨"BEER", 3 / 5⟩⟩]

/-- Concrete starting swap of the C10 witness: maker of 0.5 BEER. -/
def c10_swap : MakerSwap := MakerSwap.new 1 "BEER" "ETH" (1 / 2) 1 2 "uuid-c10"

/-- Witness for C10: the starting swap's own registry entry does not count
(locked by others is 0.6, not 1.1), and with balance 1.0 the start of a
0.5 BEER maker swap fails the precondition 0.5 > 1.0 − 0.6. -/
theorem C10_start_available_balance_witness :
    get_locked_amount_by_other_swaps c10_running "uuid-c10" "BEER" =
      get_locked_amount_by_other_swaps [⟨"uuid-other", ⟨"BEER", 3 / 5⟩⟩] "uuid-c10" "BEER" ∧
    c10_swap.start (Except.ok 1) c10_running (Except.ok ()) (Except.ok ())
        (fun n => n) 9 1000 (Except.ok 1) (Except.ok 1) 1 1 =
      (some .Finish, [.StartFailed ⟨"maker amount is larger than available"⟩]) := by
  constructor
  · exact (C10_start_available_balance c10_swap
      [⟨"uuid-other", ⟨"BEER", 3 / 5⟩⟩]).1 ⟨"uuid-c10", ⟨"BEER", 1 / 2⟩⟩ "BEER" rfl
  · exact (C10_start_available_balance c10_swap c10_running).2 1
      (Except.ok ()) (Except.ok ()) (fun n => n) 9 1000 (Except.ok 1) (Except.ok 1) 1 1
      (by
        have hlocked : get_locked_amount_by_other_swaps c10_running c10_swap.uuid
            c10_swap.maker_coin = 3 / 5 := by
          simp [c10_running, c10_swap, MakerSwap.new, get_locked_amount_by_other_swaps]
        rw [hlocked]
        norm_num [c10_swap, MakerSwap.new])
